import Mathlib

/-!
Verification development for the bifrost repository (ClandininLab/bifrost).

The Python sources under `src/bifrost` are shallowly embedded below:
pure numeric code is modelled over `ℚ` (exact arithmetic standing in for
floats), the filesystem is modelled as an association list from paths to
file contents, and the external registration engine is modelled as an
oracle `Nat → EngineOutcome` giving the outcome of the n-th engine
invocation of a stage (success with some output contents, failure before
any output was written, or failure after the warped-image file was
written, i.e. a partial/incomplete write).
-/

set_option maxRecDepth 4000

namespace Bifrost

/-! ## Filesystem model for the template-building stage loop

A file is a `(path, contents)` pair; contents are abstract `Nat` tokens.
`writeFile` models `ants.image_write` / `shutil.copy` (overwrite),
`removeFile` models `os.remove` with `FileNotFoundError` swallowed, as in
`__clean_step_output` (build_template.py lines 483-496). -/

abbrev FS := List (String × Nat)

def fileExists (fs : FS) (p : String) : Bool :=
  fs.any (fun e => e.1 == p)

def writeFile (fs : FS) (p : String) (c : Nat) : FS :=
  (p, c) :: fs.filter (fun e => e.1 != p)

def removeFile (fs : FS) (p : String) : FS :=
  fs.filter (fun e => e.1 != p)

/-- Checkpoint suffix: `"_m"` for the mirrored variant, `""` otherwise
(build_template.py lines 450-453, 467-470, 483-486). -/
def variantSuffix (mirror : Bool) : String :=
  if mirror then "_m" else ""

/-- Path of the warped-image output `f"{step_dir}/{input_name}{suffix}.nii"`. -/
def imagePath (stepDir name : String) (mirror : Bool) : String :=
  stepDir ++ "/" ++ name ++ variantSuffix mirror ++ ".nii"

/-- Path of the transform output `f"{step_dir}/{input_name}{suffix}_t.nii.gz"`. -/
def transformOutPath (stepDir name : String) (mirror : Bool) : String :=
  stepDir ++ "/" ++ name ++ variantSuffix mirror ++ "_t.nii.gz"

/-- Embedding of `__step_output_exists` (build_template.py lines 467-480):
the warped image must exist, and when a transform artifact was requested
the transform file must exist too. -/
def step_output_exists (stepDir name : String) (writeTransform mirror : Bool) (fs : FS) : Bool :=
  fileExists fs (imagePath stepDir name mirror) &&
    (!writeTransform || fileExists fs (transformOutPath stepDir name mirror))

/-- Embedding of `__clean_step_output` (build_template.py lines 483-496):
removes the warped image and the transform file, but only under the single
suffix selected by the `mirror` argument (`os.remove` with
`FileNotFoundError` ignored). -/
def clean_step_output (stepDir name : String) (mirror : Bool) (fs : FS) : FS :=
  removeFile (removeFile fs (imagePath stepDir name mirror)) (transformOutPath stepDir name mirror)

/-- Outcome of one invocation of `ants.registration` together with the
subsequent `__write_step_output` for that invocation:
`ok img t` = registration succeeded and all requested outputs were written
(contents `img` for the warped image, `t` for the copied transform);
`failNoWrite` = an exception was raised before any output file was written
(e.g. the solver itself failed);
`failAfterImageWrite img` = the warped-image file was written (possibly
with truncated contents `img`) and then an exception was raised before the
transform copy completed, leaving a partial per-item output on disk. -/
inductive EngineOutcome where
  | ok (img t : Nat)
  | failNoWrite
  | failAfterImageWrite (img : Nat)
deriving DecidableEq, Repr

/-- Embedding of `__write_step_output` (build_template.py lines 450-464) for
a successful invocation: write the warped image, then, if requested, the
transform artifact. -/
def write_step_output (stepDir name : String) (img t : Nat) (writeTransform mirror : Bool) (fs : FS) : FS :=
  let fs1 := writeFile fs (imagePath stepDir name mirror) img
  if writeTransform then writeFile fs1 (transformOutPath stepDir name mirror) t else fs1

/-- State threaded through the per-item loop of `alignment_iteration`:
the filesystem, the number of engine invocations made so far in this stage
(index into the engine oracle), and the Python local variable `moving`
(build_template.py line 372), which is function-scoped: it is unbound
(`none`) until the non-mirrored branch first executes `ants.image_read`,
and afterwards holds the most recently read item. -/
structure LoopState where
  fs : FS
  k : Nat
  moving : Option String
deriving DecidableEq, Repr

inductive TryResult where
  | ok (st : LoopState)
  | exn (st : LoopState)
deriving DecidableEq, Repr

/-- One pass through the `try:` block of `alignment_iteration`
(build_template.py lines 362-411) for one item: skip the non-mirrored work
if its checkpoint output exists, otherwise read the item (binding the
local `moving`), invoke the engine and write outputs; then, when `mirror`
is set, do the same for the mirrored variant, which reads the local
`moving` (line 398) — referencing it while still unbound raises
`UnboundLocalError`, modelled as an exception with no engine invocation. -/
def tryBlock (stepDir : String) (writeTransform mirror : Bool) (beh : Nat → EngineOutcome)
    (name : String) (st : LoopState) : TryResult :=
  let primary : TryResult :=
    if step_output_exists stepDir name writeTransform false st.fs then .ok st
    else
      let st := { st with moving := some name }
      match beh st.k with
      | .ok img t =>
          .ok { st with k := st.k + 1,
                        fs := write_step_output stepDir name img t writeTransform false st.fs }
      | .failNoWrite => .exn { st with k := st.k + 1 }
      | .failAfterImageWrite img =>
          .exn { st with k := st.k + 1,
                         fs := writeFile st.fs (imagePath stepDir name false) img }
  match primary with
  | .exn st1 => .exn st1
  | .ok st1 =>
    if mirror then
      if step_output_exists stepDir name writeTransform true st1.fs then .ok st1
      else
        match st1.moving with
        | none => .exn st1
        | some _ =>
          match beh st1.k with
          | .ok img t =>
              .ok { st1 with k := st1.k + 1,
                             fs := write_step_output stepDir name img t writeTransform true st1.fs }
          | .failNoWrite => .exn { st1 with k := st1.k + 1 }
          | .failAfterImageWrite img =>
              .exn { st1 with k := st1.k + 1,
                              fs := writeFile st1.fs (imagePath stepDir name true) img }
    else .ok st1

inductive PassResult where
  | done (st : LoopState)
  | failed (name : String) (rest : List String) (st : LoopState)
deriving DecidableEq, Repr

/-- The `for input_path in glob(...)` loop of `alignment_iteration`
(build_template.py lines 358-425), run until the first exception: items are
processed in order; the first item whose `try:` block raises stops the
pass, remembering that item, the remaining items and the state at the
exception. -/
def runPass (stepDir : String) (writeTransform mirror : Bool) (beh : Nat → EngineOutcome) :
    List String → LoopState → PassResult
  | [], st => .done st
  | name :: items, st =>
    match tryBlock stepDir writeTransform mirror beh name st with
    | .ok st1 => runPass stepDir writeTransform mirror beh items st1
    | .exn st1 => .failed name items st1

inductive StageResult where
  | done (st : LoopState)
  | aborted (st : LoopState)
deriving DecidableEq, Repr

/-- The retry loop of `alignment_iteration` (build_template.py lines
347, 361-425). The source initialises `__retries = 0` once, before the
`for` loop over items, and on each exception checks `__retries < 2`,
cleans the current item's outputs under the stage's `mirror` suffix,
increments `__retries` and re-enters the loop at the same item; once the
budget is exhausted the next exception is re-raised and the stage aborts.
Here `budget` is the number of retries still available (`2 - __retries`),
so the stage is started with `budget = 2`; the budget is shared by all
items of the stage, exactly as the single function-level `__retries`
counter is. -/
def runRetry (stepDir : String) (writeTransform mirror : Bool) (beh : Nat → EngineOutcome) :
    Nat → List String → LoopState → StageResult
  | budget, items, st =>
    match runPass stepDir writeTransform mirror beh items st with
    | .done st1 => .done st1
    | .failed name rest st1 =>
      match budget with
      | 0 => .aborted st1
      | b + 1 =>
          runRetry stepDir writeTransform mirror beh b (name :: rest)
            ⟨clean_step_output stepDir name mirror st1.fs, st1.k, st1.moving⟩

/-- Embedding of `alignment_iteration` (build_template.py lines 337-435) up
to and including its per-item loop: if the step's template file already
exists the whole step is skipped, otherwise every item of the moving set is
processed with the shared retry budget of 2. The trailing
`generate_template` call is modelled separately (`average_images` below). -/
def alignment_iteration (outputDir stepName : String) (writeTransform mirror : Bool)
    (beh : Nat → EngineOutcome) (items : List String) (fs : FS) : StageResult :=
  let stepDir := outputDir ++ "/scratch/" ++ stepName
  if fileExists fs (outputDir ++ "/templates/" ++ stepName ++ ".nii") then .done ⟨fs, 0, none⟩
  else runRetry stepDir writeTransform mirror beh 2 items ⟨fs, 0, none⟩

/-- `true` exactly for the engine outcomes that raise an exception. -/
def EngineOutcome.isFailure : EngineOutcome → Bool
  | .ok _ _ => false
  | _ => true

/-- Engine oracle: the first two invocations of the stage fail (before any
output is written), the third succeeds, every later one fails. -/
def behC1 : Nat → EngineOutcome
  | 0 => .failNoWrite
  | 1 => .failNoWrite
  | 2 => .ok 10 0
  | _ => .failNoWrite

/-- C1 counterexample. The retry budget of `alignment_iteration` is NOT per
item: with two items `a`, `b`, item `a` fails twice and then succeeds
(engine invocations 0, 1, 2), consuming the whole stage-wide budget of 2
retries; item `b` then fails once (engine invocation 3, its first and only
attempt) and the stage immediately aborts (`final k = 4`, and only `a`'s
output is on disk). Under the claim, `b`'s first failure would have to be
retried up to 2 more times; instead `a`'s failures reduced the retries
available to `b` to zero. -/
theorem retry_budget_not_per_item_cex :
    alignment_iteration "out" "affine_1" false false behC1 ["a", "b"] [] =
      .aborted ⟨[("out/scratch/affine_1/a.nii", 10)], 4, some "b"⟩ := by decide

/-- C1 amended: the retry budget of every stage run by `alignment_iteration`
is per stage, not per item. One function-level counter `__retries` is shared
by all items: (1) an item that completes its `try:` block hands the unchanged
remaining budget to the following items; (2) whenever processing an item
raises an exception and the shared budget is not exhausted, the item's
outputs under the stage's variant suffix are deleted and that same item is
retried, with the stage-wide budget decremented; (3) when the shared budget
is exhausted, the next exception — possibly an item's first — propagates
and the stage aborts without continuing with other items. -/
theorem retry_budget_shared_across_items :
    ∀ (stepDir : String) (wt mir : Bool) (beh : Nat → EngineOutcome)
      (name : String) (items rest : List String) (st st1 : LoopState) (b : Nat),
      (tryBlock stepDir wt mir beh name st = .ok st1 →
        runPass stepDir wt mir beh (name :: items) st = runPass stepDir wt mir beh items st1) ∧
      (runPass stepDir wt mir beh items st = .failed name rest st1 →
        runRetry stepDir wt mir beh (b + 1) items st =
          runRetry stepDir wt mir beh b (name :: rest)
            ⟨clean_step_output stepDir name mir st1.fs, st1.k, st1.moving⟩) ∧
      (runPass stepDir wt mir beh items st = .failed name rest st1 →
        runRetry stepDir wt mir beh 0 items st = .aborted st1) := by
  intro stepDir wt mir beh name items rest st st1 b
  refine ⟨fun h => ?_, fun h => ?_, fun h => ?_⟩
  · simp [runPass, h]
  · rw [runRetry, h]
  · rw [runRetry, h]

/-- Witness for `retry_budget_shared_across_items`: each of the three cases
instantiated at a concrete stage (one always-succeeding oracle, one
always-failing oracle). -/
theorem retry_budget_shared_across_items_witness :
    (runPass "d" false false (fun _ => .ok 1 2) ["a", "b"] ⟨[], 0, none⟩ =
      runPass "d" false false (fun _ => .ok 1 2) ["b"] ⟨[("d/a.nii", 1)], 1, some "a"⟩) ∧
    (runRetry "d" false false (fun _ => .failNoWrite) 2 ["b"] ⟨[], 0, none⟩ =
      runRetry "d" false false (fun _ => .failNoWrite) 1 ["b"] ⟨[], 1, some "b"⟩) ∧
    (runRetry "d" false false (fun _ => .failNoWrite) 0 ["b"] ⟨[], 0, none⟩ =
      .aborted ⟨[], 1, some "b"⟩) :=
  ⟨(retry_budget_shared_across_items "d" false false (fun _ => .ok 1 2)
      "a" ["b"] [] ⟨[], 0, none⟩ ⟨[("d/a.nii", 1)], 1, some "a"⟩ 0).1 (by decide),
   by
    have h2 := (retry_budget_shared_across_items "d" false false (fun _ => .failNoWrite)
      "b" ["b"] [] ⟨[], 0, none⟩ ⟨[], 1, some "b"⟩ 1).2.1 (by decide)
    simpa [clean_step_output, removeFile] using h2,
   (retry_budget_shared_across_items "d" false false (fun _ => .failNoWrite)
      "b" ["b"] [] ⟨[], 0, none⟩ ⟨[], 1, some "b"⟩ 0).2.2 (by decide)⟩

/-- Engine oracle for the C2 counterexample: invocation 0 (the item's
non-mirrored registration) crashes while writing the warped image, leaving
a partial file with contents `7`; invocation 1 (the mirrored registration
of the retry) fails before writing; invocation 2 succeeds. -/
def behC2 : Nat → EngineOutcome
  | 0 => .failAfterImageWrite 7
  | 1 => .failNoWrite
  | _ => .ok 5 0

/-- C2 counterexample. In a stage with mirroring enabled, processing item
`x` fails on attempts 1 and 2 and succeeds on attempt 3, yet the final
on-disk outputs do NOT equal those of a single successful attempt: attempt
1 crashes mid-write leaving the partial image `("…/x.nii", 7)`;
`__clean_step_output` is called with the stage's `mirror = true`, so it
removes only the `_m` names and leaves the partial non-mirrored file
untouched (second conjunct); the retry's existence check then treats the
partial file as complete, so the non-mirrored registration is never redone
and the failed attempt's artifact `("…/x.nii", 7)` persists into the final
successful result (engine invocation 0 — the only non-mirrored one — had
failed). This refutes "the cleanup run before each retry removes every
partial output of the failed attempt for that item". -/
theorem retry_cleanup_leaves_partial_cex :
    tryBlock "out/scratch/affine_0" false true behC2 "x" ⟨[], 0, none⟩ =
        .exn ⟨[("out/scratch/affine_0/x.nii", 7)], 1, some "x"⟩ ∧
      clean_step_output "out/scratch/affine_0" "x" true [("out/scratch/affine_0/x.nii", 7)] =
        [("out/scratch/affine_0/x.nii", 7)] ∧
      alignment_iteration "out" "affine_0" false true behC2 ["x"] [] =
        .done ⟨[("out/scratch/affine_0/x_m.nii", 5), ("out/scratch/affine_0/x.nii", 7)],
               3, some "x"⟩ := by decide

/-- C2 amended: for a stage WITHOUT mirroring, the retry-cleanup property
holds as claimed: whatever the two failure modes of attempts 1 and 2 (an
exception before any write, or a crash leaving a partial image file with
arbitrary contents), and whether or not a transform artifact is requested,
the cleanup before each retry removes every partial output of the failed
attempt, and the on-disk outputs after the third, successful, attempt are
exactly the outputs of a single successful attempt (second conjunct: the
same stage where the engine succeeds immediately ends with the identical
filesystem). With mirroring enabled the cleanup touches only the mirrored
names, so the property fails (see the counterexample). -/
theorem retry_cleanup_single_success_no_mirror :
    ∀ (o1 o2 : EngineOutcome) (img t : Nat) (wt : Bool),
      o1.isFailure = true → o2.isFailure = true →
      runRetry "step" wt false (fun n => match n with | 0 => o1 | 1 => o2 | _ => .ok img t) 2
          ["x"] ⟨[], 0, none⟩ =
        .done ⟨write_step_output "step" "x" img t wt false [], 3, some "x"⟩ ∧
      runRetry "step" wt false (fun _ => .ok img t) 2 ["x"] ⟨[], 0, none⟩ =
        .done ⟨write_step_output "step" "x" img t wt false [], 1, some "x"⟩ := by
  intro o1 o2 img t wt h1 h2
  cases o1 <;> simp [EngineOutcome.isFailure] at h1 <;>
    cases o2 <;> simp [EngineOutcome.isFailure] at h2 <;> cases wt <;> exact ⟨rfl, rfl⟩

/-- Witness for `retry_cleanup_single_success_no_mirror`: attempt 1 fails
before writing, attempt 2 crashes mid-write (partial contents 4), attempt 3
succeeds with image 9 and transform 6. -/
theorem retry_cleanup_single_success_no_mirror_witness :
    runRetry "step" true false
        (fun n => match n with
          | 0 => .failNoWrite | 1 => .failAfterImageWrite 4 | _ => .ok 9 6) 2
        ["x"] ⟨[], 0, none⟩ =
      .done ⟨write_step_output "step" "x" 9 6 true false [], 3, some "x"⟩ :=
  (retry_cleanup_single_success_no_mirror .failNoWrite (.failAfterImageWrite 4)
    9 6 true rfl rfl).1

/-- C3: when a stage runs with mirroring enabled and, for item `x`, the
non-mirrored output already exists on disk (here: from an earlier resumed
run) but the mirrored output does not, `alignment_iteration` does NOT
perform the mirrored work: the non-mirrored branch is skipped, so the
function-scoped Python local `moving` (assigned only inside that branch at
build_template.py line 372) is still unbound when line 398 evaluates
`update_image_array(moving, moving[::-1])`; the resulting
`UnboundLocalError` is caught by the generic retry handler, recurs on both
retries, and the stage aborts. The engine is never invoked (final `k = 0`)
and no mirrored output is ever produced. -/
theorem mirror_resume_unbound_moving_aborts :
    alignment_iteration "out" "affine_0" false true (fun _ => .ok 1 1) ["x"]
        [("out/scratch/affine_0/x.nii", 3)] =
      .aborted ⟨[("out/scratch/affine_0/x.nii", 3)], 0, none⟩ := by decide

/-! ## Path-level filesystem model for `build_template`'s top-level flow

For the early-return check (lines 75-90), the `finally` clause (lines
219-221) and the finalisation (lines 196-211) only the set of existing
paths matters, so here a filesystem is a list of paths. -/

abbrev PathFS := List String

/-- `true` when path `p` is the directory `dir` itself or lies below it. -/
def underDir (dir p : String) : Bool :=
  p == dir || (dir ++ "/").data.isPrefixOf p.data

/-- `shutil.rmtree(dir)`: removes `dir` and everything below it; raises
`FileNotFoundError` when `dir` does not exist. -/
def rmtree (dir : String) (fs : PathFS) : Except String PathFS :=
  if fs.contains dir then .ok (fs.filter (fun p => !underDir dir p))
  else .error "FileNotFoundError"

/-- `shutil.move(src, dst)`: `src` disappears, `dst` appears. -/
def shutilMove (src dst : String) (fs : PathFS) : Except String PathFS :=
  if fs.contains src then .ok (dst :: fs.filter (fun p => p != src))
  else .error "FileNotFoundError"

/-- `os.symlink(target, link)`: creates the path `link` (pointing at
`target`, which a path-set model does not record); raises if `link`
already exists. -/
def osSymlink (_target link : String) (fs : PathFS) : Except String PathFS :=
  if fs.contains link then .error "FileExistsError" else .ok (link :: fs)

/-- Fragment of `build_template` (build_template.py lines 75-90 and
215-221) for the run where `args.output` already exists and neither
`--force` nor `--preemptible` is set: everything before the existence
check (lines 55-74) only reads the filesystem, the `try:` body logs a
warning and returns (line 85), and the `finally:` clause then runs
`shutil.rmtree(f"{args.output}/scratch")` unconditionally (line 221), so
the whole effect of such a run is that single `rmtree`. -/
def build_template_preexisting_no_flags (output : String) (fs : PathFS) : Except String PathFS :=
  rmtree (output ++ "/scratch") fs

/-- C4: the early return of `build_template` on a pre-existing output
directory without `--force`/`--preemptible` is neither error-free nor
filesystem-neutral, because the `finally:` clause still runs
`shutil.rmtree(output/scratch)`. First conjunct: for an output directory
left by a completed earlier run (its scratch was already deleted on exit),
the "early return" raises `FileNotFoundError` instead of returning.
Second conjunct: if `output/scratch` does exist (e.g. left by a killed
run), the early-returning run deletes it and its contents, modifying the
filesystem. (`register` in register.py lines 69-78 has no such `finally`
and does return cleanly, but the claim asserts the property for
`build_template` as well.) -/
theorem preexisting_output_early_return_has_side_effects :
    build_template_preexisting_no_flags "out" ["out", "out/template.nii"] =
        .error "FileNotFoundError" ∧
      build_template_preexisting_no_flags "out"
          ["out", "out/scratch", "out/scratch/affine_0", "out/template.nii"] =
        .ok ["out", "out/template.nii"] := ⟨rfl, rfl⟩

/-- Finalisation of `build_template` (build_template.py lines 196-211):
move the last SyN template `templates/syn_{S-1}.nii` to the final
`template.nii`; with `--keep-intermediates`, re-insert a symlink to the
final result — which the source creates at `templates/syn_{S}.nii`
(line 207 uses `args.syn_steps`, not `args.syn_steps - 1`); without it,
delete the `preprocessed` and `templates` directories. -/
def build_template_finalize (output : String) (synSteps : Nat) (keepIntermediates : Bool)
    (fs : PathFS) : Except String PathFS :=
  match shutilMove (output ++ "/templates/syn_" ++ toString (synSteps - 1) ++ ".nii")
      (output ++ "/template.nii") fs with
  | .error e => .error e
  | .ok fs1 =>
    if keepIntermediates then
      osSymlink (output ++ "/template.nii")
        (output ++ "/templates/syn_" ++ toString synSteps ++ ".nii") fs1
    else
      match rmtree (output ++ "/preprocessed") fs1 with
      | .error e => .error e
      | .ok fs2 => rmtree (output ++ "/templates") fs2

/-- C9: with `syn_steps = 1` and `--keep-intermediates`, the last SyN
template `templates/syn_0.nii` is indeed moved to the final
`template.nii` and the `preprocessed` and `templates` directories are
retained, but the re-inserted reference is created under the name
`templates/syn_1.nii` — NOT under `templates/syn_0.nii`, the name of the
moved final template (the source's own comment, line 204, says it adds
back the symlink "for the final result which was moved"): the final
filesystem lacks `templates/syn_0.nii` and contains the never-before-used
name `templates/syn_1.nii`. -/
theorem keep_intermediates_symlink_wrong_name :
    build_template_finalize "out" 1 true
        ["out", "out/preprocessed", "out/templates", "out/templates/affine_0.nii",
         "out/templates/syn_0.nii", "out/scratch"] =
        .ok ["out/templates/syn_1.nii", "out/template.nii", "out", "out/preprocessed",
             "out/templates", "out/templates/affine_0.nii", "out/scratch"] ∧
      ("out/templates/syn_0.nii" ∉
        ["out/templates/syn_1.nii", "out/template.nii", "out", "out/preprocessed",
         "out/templates", "out/templates/affine_0.nii", "out/scratch"]) := ⟨rfl, by decide⟩

/-! ## ANTs image model

A 3-D numpy array is a shape together with a total index function (values
at out-of-range indices are irrelevant junk, as they are never read by the
embedded code within bounds); intensities are `ℚ`, standing in for exact
float arithmetic. An `ANTsImage` pairs an array with the geometry metadata
the source reads and writes (`origin`, `spacing`, `direction`,
`has_components`); `ants.from_numpy` is the constructor. -/

structure NpArray where
  shape : Fin 3 → ℕ
  data : (Fin 3 → ℕ) → ℚ

structure ANTsImage where
  arr : NpArray
  origin : Fin 3 → ℚ
  spacing : Fin 3 → ℚ
  direction : Fin 3 → Fin 3 → ℚ
  has_components : Bool

/-- Embedding of `update_image_array` (util.py lines 15-38): rebuild the
image from the new array via `ants.from_numpy`, preserving all metadata.
(The source asserts that the new array has the image's shape; every
modelled call site preserves the shape.) -/
def update_image_array (image : ANTsImage) (updated : NpArray) : ANTsImage :=
  { arr := updated, origin := image.origin, spacing := image.spacing,
    direction := image.direction, has_components := image.has_components }

/-- Embedding of `transpose_image` (util.py lines 70-99). The
`transposition` argument is a permutation of `0,1,2` (the source asserts
`sorted(transposition) == list(range(...))`), modelled as
`P : Equiv.Perm (Fin 3)`. The array is `np.transpose(arr, P)` (axis `j` of
the result is axis `P j` of the input, so the result reads the input at
the index vector reindexed through `P.symm`); `origin`, `spacing` and the
ROWS of `direction` are permuted with the same `_permute` (new entry `j` =
old entry `P j`; `np.stack` of the permuted row list). -/
def transpose_image (image : ANTsImage) (P : Equiv.Perm (Fin 3)) : ANTsImage :=
  { arr := ⟨fun j => image.arr.shape (P j), fun idx => image.arr.data (fun k => idx (P.symm k))⟩,
    origin := fun j => image.origin (P j),
    spacing := fun j => image.spacing (P j),
    direction := fun i j => image.direction (P i) j,
    has_components := image.has_components }

/-- C6: for every permutation `P` of the 3 axes, transposing by `P` and
then by its inverse permutation (`np.argsort` of a permutation is its
inverse, modelled `P.symm`, exactly as register.py lines 307-308 compute
`inverse_transposition = np.argsort(optimal_transposition)`) returns a
volume identical to the original in data array, shape, origin, spacing and
direction matrix. -/
theorem transpose_image_roundtrip (image : ANTsImage) (P : Equiv.Perm (Fin 3)) :
    transpose_image (transpose_image image P) P.symm = image := by
  cases image with
  | mk arr origin spacing direction hc =>
    cases arr with
    | mk shape data =>
      simp only [transpose_image, Equiv.symm_symm, ANTsImage.mk.injEq, NpArray.mk.injEq]
      refine ⟨⟨funext fun j => ?_, funext fun idx => ?_⟩,
        funext fun j => ?_, funext fun j => ?_, funext fun i => ?_, trivial⟩ <;> simp

/-- Embedding of `__average_images` (build_template.py lines 438-447) on
the list of images matched by its glob pattern, in glob order: on an empty
match list, `img_paths[0]` raises `IndexError` (modelled `none`);
otherwise the first image's array is divided by the match count, each
further image's array is divided by the count and accumulated in a loop,
and the result is rebuilt from the first image's metadata via
`update_image_array`. -/
def average_images : List ANTsImage → Option ANTsImage
  | [] => none
  | img0 :: rest =>
    let n : ℚ := (img0 :: rest).length
    let init : NpArray := ⟨img0.arr.shape, fun idx => img0.arr.data idx / n⟩
    let avg := rest.foldl
      (fun acc img => (⟨acc.shape, fun idx => acc.data idx + img.arr.data idx / n⟩ : NpArray)) init
    some (update_image_array img0 avg)

lemma average_images_foldl (n : ℚ) (rest : List ANTsImage) (sh : Fin 3 → ℕ)
    (f : (Fin 3 → ℕ) → ℚ) :
    rest.foldl
        (fun acc img => (⟨acc.shape, fun idx => acc.data idx + img.arr.data idx / n⟩ : NpArray))
        ⟨sh, f⟩ =
      ⟨sh, fun idx => f idx + ((rest.map (fun im => im.arr.data idx / n)).sum)⟩ := by
  induction rest generalizing f with
  | nil => simp
  | cons a l ih =>
    simp only [List.foldl_cons, ih, List.map_cons, List.sum_cons, NpArray.mk.injEq, true_and]
    funext idx
    ring

lemma sum_map_div (l : List ANTsImage) (g : ANTsImage → ℚ) (n : ℚ) :
    (l.map (fun im => g im / n)).sum = (l.map g).sum / n := by
  induction l with
  | nil => simp
  | cons a t ih => simp [ih]; ring

/-- C10: `__average_images` is only defined for a non-empty match set —
an empty glob yields `none` (the source raises `IndexError` indexing
`img_paths[0]`) — and for every non-empty list of same-shape inputs it
returns the voxelwise arithmetic mean of the inputs, with shape and all
geometry metadata copied from the first matched input. -/
theorem average_images_spec :
    average_images [] = none ∧
    ∀ (img0 : ANTsImage) (rest : List ANTsImage),
      (∀ img ∈ rest, img.arr.shape = img0.arr.shape) →
      average_images (img0 :: rest) =
        some { arr := ⟨img0.arr.shape,
                 fun idx => (((img0 :: rest).map (fun im => im.arr.data idx)).sum) /
                   ((img0 :: rest).length : ℚ)⟩,
               origin := img0.origin, spacing := img0.spacing,
               direction := img0.direction, has_components := img0.has_components } := by
  refine ⟨rfl, fun img0 rest _hsh => ?_⟩
  simp only [average_images, average_images_foldl, update_image_array, List.map_cons,
    List.sum_cons, Option.some.injEq, ANTsImage.mk.injEq, NpArray.mk.injEq, true_and,
    and_true]
  funext idx
  rw [sum_map_div, div_add_div_same]

/-- Concrete two-image instance for the witness below. -/
def imgW1 : ANTsImage :=
  ⟨⟨![1, 1, 1], fun _ => 2⟩, ![0, 0, 0], ![1, 1, 1], fun i j => if i = j then 1 else 0, false⟩

/-- Second concrete image, same shape as `imgW1`, different data and metadata. -/
def imgW2 : ANTsImage :=
  ⟨⟨![1, 1, 1], fun _ => 4⟩, ![5, 5, 5], ![2, 2, 2], fun _ _ => 3, true⟩

/-- Witness for `average_images_spec`: the empty case and a concrete
two-image mean. -/
theorem average_images_spec_witness :
    average_images [] = none ∧
    average_images [imgW1, imgW2] =
      some { arr := ⟨imgW1.arr.shape,
               fun idx => ((([imgW1, imgW2]).map (fun im => im.arr.data idx)).sum) /
                 (([imgW1, imgW2] : List ANTsImage).length : ℚ)⟩,
             origin := imgW1.origin, spacing := imgW1.spacing,
             direction := imgW1.direction, has_components := imgW1.has_components } :=
  ⟨average_images_spec.1,
   average_images_spec.2 imgW1 [imgW2] (by intro img h; rw [List.mem_singleton] at h; subst h; rfl)⟩

/-! ## Archive model (io.py)

An open h5 file is an association list from absolute names to nodes; a
node is a group or a dataset with a payload and scalar attributes.
h5py's chunked, gzip-compressed, fletcher32-checksummed dataset storage is
an external collaborator whose documented contract is lossless storage; it
is therefore modelled as exact association (the payload read back is the
payload written). `create_group`/`create_dataset` raise when the name
already exists, modelled by `none`. -/

inductive H5Attr where
  | vec3 (v : Fin 3 → ℚ)
  | mat3 (m : Fin 3 → Fin 3 → ℚ)
  | flag (b : Bool)

inductive H5Payload where
  | oneD (xs : List ℚ)
  | vol (a : NpArray)

inductive H5Node where
  | group
  | dataset (payload : H5Payload) (attrs : List (String × H5Attr))

abbrev H5File := List (String × H5Node)

def h5Lookup (h : H5File) (nm : String) : Option H5Node :=
  (h.find? (fun e => e.1 == nm)).map (fun e => e.2)

def create_group (h : H5File) (nm : String) : Option H5File :=
  if (h5Lookup h nm).isSome then none else some ((nm, .group) :: h)

def create_dataset (h : H5File) (nm : String) (p : H5Payload) : Option H5File :=
  if (h5Lookup h nm).isSome then none else some ((nm, .dataset p []) :: h)

/-- `h5_handle[nm].attrs[key] = v`. -/
def setAttr (h : H5File) (nm key : String) (v : H5Attr) : H5File :=
  h.map (fun e =>
    if e.1 == nm then
      match e.2 with
      | .dataset p attrs => (e.1, H5Node.dataset p (attrs ++ [(key, v)]))
      | n => (e.1, n)
    else e)

def getAttr (attrs : List (String × H5Attr)) (key : String) : Option H5Attr :=
  (attrs.find? (fun e => e.1 == key)).map (fun e => e.2)

/-- An ANTs affine transform as io.py reads and writes it. -/
structure ANTsTransform where
  parameters : List ℚ
  fixed_parameters : List ℚ

/-- Embedding of `write_affine` (io.py lines 16-34): create the group
`nm`, then the datasets `nm/parameters` and `nm/fixed_parameters` holding
the transform's parameter arrays. -/
def write_affine (h : H5File) (nm : String) (t : ANTsTransform) : Option H5File :=
  match create_group h nm with
  | none => none
  | some h1 =>
    match create_dataset h1 (nm ++ "/parameters") (.oneD t.parameters) with
    | none => none
    | some h2 => create_dataset h2 (nm ++ "/fixed_parameters") (.oneD t.fixed_parameters)

/-- Embedding of `read_affine` (io.py lines 37-66, `directory = None`):
build a fresh transform and set its parameters and fixed parameters from
the two datasets. -/
def read_affine (h : H5File) (nm : String) : Option ANTsTransform :=
  match h5Lookup h (nm ++ "/parameters"), h5Lookup h (nm ++ "/fixed_parameters") with
  | some (.dataset (.oneD p) _), some (.dataset (.oneD f) _) => some ⟨p, f⟩
  | _, _ => none

/-- Embedding of `write_image` (io.py lines 69-98): create the compressed,
chunked, checksummed dataset from `image.numpy()`, then record the
`origin`, `spacing`, `direction` and `has_components` attributes. -/
def write_image (h : H5File) (nm : String) (image : ANTsImage) : Option H5File :=
  match create_dataset h nm (.vol image.arr) with
  | none => none
  | some h1 =>
    let h2 := setAttr h1 nm "origin" (.vec3 image.origin)
    let h3 := setAttr h2 nm "spacing" (.vec3 image.spacing)
    let h4 := setAttr h3 nm "direction" (.mat3 image.direction)
    some (setAttr h4 nm "has_components" (.flag image.has_components))

/-- Embedding of `read_image` (io.py lines 101-134, `directory = None`):
rebuild the image via `ants.from_numpy` from the stored array and the four
geometry attributes. -/
def read_image (h : H5File) (nm : String) : Option ANTsImage :=
  match h5Lookup h nm with
  | some (.dataset (.vol a) attrs) =>
    match getAttr attrs "origin", getAttr attrs "spacing",
        getAttr attrs "direction", getAttr attrs "has_components" with
    | some (.vec3 o), some (.vec3 s), some (.mat3 d), some (.flag b) => some ⟨a, o, s, d, b⟩
    | _, _, _, _ => none
  | _ => none

lemma string_append_ne (a : String) {b c : String} (hbc : b ≠ c) : a ++ b ≠ a ++ c := by
  intro he
  apply hbc
  apply String.ext
  have hd := congrArg String.data he
  rw [String.data_append, String.data_append] at hd
  exact List.append_cancel_left hd

/-- C5: archive round-trip. Writing an affine transform with
`write_affine` and reading it back with `read_affine` returns bit-identical
parameter and fixed-parameter arrays; writing an image/warp dataset with
`write_image` and reading it back with `read_image` returns a bit-identical
data array and equal geometry attributes (origin, spacing, direction,
component flag — the component count is determined by the array together
with `has_components`): the storage is lossless for every dataset whose
write succeeded. -/
theorem archive_roundtrip :
    (∀ (h h2 : H5File) (nm : String) (t : ANTsTransform),
      write_affine h nm t = some h2 → read_affine h2 nm = some t) ∧
    (∀ (h h2 : H5File) (nm : String) (image : ANTsImage),
      write_image h nm image = some h2 → read_image h2 nm = some image) := by
  constructor
  · intro h h2 nm t hw
    unfold write_affine at hw
    split at hw
    · exact absurd hw (by simp)
    · rename_i h1 hg
      split at hw
      · exact absurd hw (by simp)
      · rename_i h1' hp
        unfold create_dataset at hw hp
        unfold create_group at hg
        split at hg <;> simp at hg
        split at hp <;> simp at hp
        split at hw <;> simp at hw
        subst hg hp hw
        have hne : ((nm ++ "/fixed_parameters" == nm ++ "/parameters") = false) := by
          rw [beq_eq_false_iff_ne]
          exact string_append_ne nm (by decide)
        cases t
        simp [read_affine, h5Lookup, List.find?, hne]
  · intro h h2 nm image hw
    unfold write_image at hw
    split at hw
    · exact absurd hw (by simp)
    · rename_i h1 hd
      unfold create_dataset at hd
      split at hd <;> simp at hd
      subst hd
      simp only [Option.some.injEq] at hw
      subst hw
      cases image
      simp [read_image, h5Lookup, setAttr, getAttr, List.find?]

/-- Concrete transform for the round-trip witness. -/
def transformW : ANTsTransform := ⟨[1, 2, 3], [4, 5]⟩

/-- Witness for `archive_roundtrip`: a concrete affine transform and a
concrete image are written into an empty archive and read back. -/
theorem archive_roundtrip_witness :
    read_affine [("/affine/fixed_parameters", .dataset (.oneD [4, 5]) []),
        ("/affine/parameters", .dataset (.oneD [1, 2, 3]) []),
        ("/affine", .group)] "/affine" = some transformW ∧
    read_image (setAttr (setAttr (setAttr (setAttr [("/synthmorph", .dataset (.vol imgW1.arr) [])]
        "/synthmorph" "origin" (.vec3 imgW1.origin)) "/synthmorph" "spacing" (.vec3 imgW1.spacing))
        "/synthmorph" "direction" (.mat3 imgW1.direction))
        "/synthmorph" "has_components" (.flag imgW1.has_components)) "/synthmorph" =
      some imgW1 :=
  ⟨archive_roundtrip.1 [] _ "/affine" transformW rfl,
   archive_roundtrip.2 [] _ "/synthmorph" imgW1 rfl⟩

/-! ## Mirror-axis detection (register.py lines 305-331) -/

/-- The index vector `(i, j, k)` as a function on `Fin 3`. -/
def idx3 (i j k : ℕ) : Fin 3 → ℕ :=
  fun t => if t = 0 then i else if t = 1 then j else k

/-- `np.flip(arr, ax)`: reverse the array along axis `ax`. -/
def npFlip (a : NpArray) (ax : Fin 3) : NpArray :=
  ⟨a.shape, fun idx => a.data (fun k => if k = ax then a.shape ax - 1 - idx ax else idx k)⟩

/-- `np.sum((affine_img - mirrored_img) ** 2)` for the reflection across
axis `ax` (register.py lines 321-324, inside the sqrt). -/
def axis_sq_diff (a : NpArray) (ax : Fin 3) : ℚ :=
  ∑ i ∈ Finset.range (a.shape 0), ∑ j ∈ Finset.range (a.shape 1),
    ∑ k ∈ Finset.range (a.shape 2),
      (a.data (idx3 i j k) - (npFlip a ax).data (idx3 i j k)) ^ 2

/-- `np.sqrt(np.sum((affine_img - mirrored_img) ** 2))`, the per-axis
entry appended to `axis_rms` (register.py line 324). -/
noncomputable def axis_rms (a : NpArray) (ax : Fin 3) : ℝ :=
  Real.sqrt ((axis_sq_diff a ax : ℚ) : ℝ)

/-- `np.argmin` over a length-3 list: index of the first minimum. -/
def argmin3 {α : Type} [LinearOrder α] (f : Fin 3 → α) : Fin 3 :=
  if f 0 ≤ f 1 then (if f 0 ≤ f 2 then 0 else 2)
  else (if f 1 ≤ f 2 then 1 else 2)

/-- Embedding of the mirror-axis selection (register.py lines 330-331):
`transposed_axis_rms = [axis_rms[idx] for idx in optimal_transposition]`
followed by `mirror_axis = np.argmin(transposed_axis_rms)`, with
`P = optimal_transposition`. -/
noncomputable def mirror_axis (a : NpArray) (P : Equiv.Perm (Fin 3)) : Fin 3 :=
  argmin3 (fun j => axis_rms a (P j))

lemma axis_sq_diff_nonneg (a : NpArray) (ax : Fin 3) : 0 ≤ axis_sq_diff a ax := by
  unfold axis_sq_diff
  refine Finset.sum_nonneg fun i _ => Finset.sum_nonneg fun j _ =>
    Finset.sum_nonneg fun k _ => ?_
  positivity

lemma fin3_cases (j : Fin 3) : j = 0 ∨ j = 1 ∨ j = 2 := by
  rcases j with ⟨v, hv⟩
  interval_cases v
  · exact Or.inl rfl
  · exact Or.inr (Or.inl rfl)
  · exact Or.inr (Or.inr rfl)

lemma argmin3_eq_of_strict_min {α : Type} [LinearOrder α] (f : Fin 3 → α) (j0 : Fin 3)
    (h : ∀ j, j ≠ j0 → f j0 < f j) : argmin3 f = j0 := by
  unfold argmin3
  rcases fin3_cases j0 with rfl | rfl | rfl
  · rw [if_pos (h 1 (by decide)).le, if_pos (h 2 (by decide)).le]
  · rw [if_neg (not_le.mpr (h 0 (by decide))), if_pos (h 2 (by decide)).le]
  · by_cases h01 : f 0 ≤ f 1
    · rw [if_pos h01, if_neg (not_le.mpr (h 0 (by decide)))]
    · rw [if_neg h01, if_neg (not_le.mpr (h 1 (by decide)))]

lemma argmin3_sqrt (g : Fin 3 → ℚ) (hg : ∀ j, 0 ≤ g j) :
    argmin3 (fun j => Real.sqrt ((g j : ℚ) : ℝ)) = argmin3 g := by
  have key : ∀ a b : Fin 3,
      (Real.sqrt ((g a : ℚ) : ℝ) ≤ Real.sqrt ((g b : ℚ) : ℝ)) ↔ (g a ≤ g b) := by
    intro a b
    rw [Real.sqrt_le_sqrt_iff (by exact_mod_cast hg b)]
    exact_mod_cast Iff.rfl
  unfold argmin3
  simp only [key]

/-- C7: the mirror-axis detection of `register` computes, for each of the
3 axes, the sum-of-squares difference between the post-affine moving
volume and its reflection across that axis (the stored per-axis value is
its square root, which preserves the ordering), and the chosen mirror axis
is the axis of minimal difference remapped through the optimal
transposition `P` (the selection runs `np.argmin` on the `P`-permuted
value list, so an axis that is strictly the most symmetric one, `j0`, is
selected as `P.symm j0`, i.e. as `j0` expressed in transposed
coordinates). -/
theorem mirror_axis_detection (a : NpArray) (P : Equiv.Perm (Fin 3)) (j0 : Fin 3)
    (hmin : ∀ j, j ≠ j0 → axis_sq_diff a j0 < axis_sq_diff a j) :
    mirror_axis a P = P.symm j0 := by
  have h1 : mirror_axis a P = argmin3 (fun j => axis_sq_diff a (P j)) :=
    argmin3_sqrt (fun j => axis_sq_diff a (P j)) (fun j => axis_sq_diff_nonneg a (P j))
  rw [h1]
  apply argmin3_eq_of_strict_min
  intro j hj
  have hPj : P j ≠ j0 := by
    intro he
    exact hj (by rw [← he, Equiv.symm_apply_apply])
  simpa using hmin (P j) hPj

/-- Synthetic volume of shape `(2, 3, 4)` (already ascending, so the
optimal transposition is the identity), exactly symmetric about axis 1
(its axis-1 profile `0, 5, 0` is palindromic) and asymmetric about axes 0
and 2. -/
def V7 : NpArray :=
  ⟨idx3 2 3 4, fun idx => 100 * (idx 0 : ℚ) + (if idx 1 = 1 then 5 else 0) + (idx 2 : ℚ)⟩

lemma axis_sq_diff_V7_axis0 : axis_sq_diff V7 0 = 240000 := by
  simp [axis_sq_diff, V7, npFlip, idx3, Finset.sum_range_succ, Finset.sum_range_zero]
  norm_num

lemma axis_sq_diff_V7_axis1 : axis_sq_diff V7 1 = 0 := by
  simp [axis_sq_diff, V7, npFlip, idx3, Finset.sum_range_succ, Finset.sum_range_zero]

lemma axis_sq_diff_V7_axis2 : axis_sq_diff V7 2 = 120 := by
  simp [axis_sq_diff, V7, npFlip, idx3, Finset.sum_range_succ, Finset.sum_range_zero]
  norm_num

/-- Witness for `mirror_axis_detection`: for `V7`, which is exactly
symmetric about axis 1 and asymmetric about axes 0 and 2, detection
selects axis 1. -/
theorem mirror_axis_detection_witness : mirror_axis V7 1 = 1 := by
  have hmin : ∀ j, j ≠ (1 : Fin 3) → axis_sq_diff V7 1 < axis_sq_diff V7 j := by
    intro j hj
    rcases fin3_cases j with rfl | rfl | rfl
    · rw [axis_sq_diff_V7_axis1, axis_sq_diff_V7_axis0]; norm_num
    · exact absurd rfl hj
    · rw [axis_sq_diff_V7_axis1, axis_sq_diff_V7_axis2]; norm_num
  have h := mirror_axis_detection V7 1 1 hmin
  simpa using h

/-! ## Warp mirror-symmetrization (register.py lines 423-430) -/

/-- A dense displacement field at the predictor's resolution: a spatial
index (the batch axis of the `(1, s0, s1, s2, 3)` tensor is dropped) and a
displacement component index to a value. -/
structure Warp where
  shape : Fin 3 → ℕ
  data : (Fin 3 → ℕ) → Fin 3 → ℚ

/-- The index reflection across spatial axis `m`. -/
def flipIdx (sh : Fin 3 → ℕ) (m : Fin 3) (idx : Fin 3 → ℕ) : Fin 3 → ℕ :=
  fun k => if k = m then sh m - 1 - idx m else idx k

/-- `np.flip(warp, mirror_axis + 1)`: the spatial reflection of the warp
across axis `m` (`+ 1` skips the batch axis; all 3 components are
reflected, none is modified). -/
def warp_flip (w : Warp) (m : Fin 3) : Warp :=
  ⟨w.shape, fun idx c => w.data (flipIdx w.shape m idx) c⟩

/-- `np.mean([a, b], axis=0)`. -/
def warp_mean2 (a b : Warp) : Warp :=
  ⟨a.shape, fun idx c => (a.data idx c + b.data idx c) / 2⟩

/-- `-flipped_warp`. -/
def warp_neg (w : Warp) : Warp :=
  ⟨w.shape, fun idx c => -(w.data idx c)⟩

/-- Embedding of the symmetrization block (register.py lines 423-430):
`flipped_warp = np.flip(warp, mirror_axis + 1)`;
`mirrored_warp = np.mean([warp, flipped_warp], axis=0)`; then component
`mirror_axis` of `mirrored_warp` is overwritten with component
`mirror_axis` of `np.mean([warp, -flipped_warp], axis=0)`; the result
replaces `warp`. -/
def symmetrize_warp (w : Warp) (m : Fin 3) : Warp :=
  let flipped := warp_flip w m
  let mirrored := warp_mean2 w flipped
  ⟨w.shape, fun idx c =>
    if c = m then (warp_mean2 w (warp_neg flipped)).data idx c else mirrored.data idx c⟩

/-- C8: the warp applied and stored under mirror-symmetrization equals, in
each displacement component `c ≠ m` orthogonal to the mirror axis, the
pointwise mean of the predicted warp and its reflection across the mirror
axis, and in the component `c = m` along the mirror axis, the pointwise
mean of the predicted warp and the negation of its reflection (the
reflection being the value of the same component at the index reflected
across axis `m`). -/
theorem symmetrize_warp_components (w : Warp) (m : Fin 3) (idx : Fin 3 → ℕ) (c : Fin 3) :
    (symmetrize_warp w m).data idx c =
      if c = m then (w.data idx c + -(w.data (flipIdx w.shape m idx) c)) / 2
      else (w.data idx c + w.data (flipIdx w.shape m idx) c) / 2 := rfl

end Bifrost
